import Mathlib

/-!
Shallow embedding of the pregnancy-risk backend
(`app/services/risk_service.py`, `app/services/weather_service.py`,
`app/services/notification_service.py`, `app/models/patient.py`,
`app/models/emergency_notification.py`) together with proofs about the
risk scoring engine, the notification escalation decider and the
emergency-notification status operations.

Conventions of the embedding:
* Python ints are `Int` (ages) or `Nat` (scores, which are only ever
  incremented); temperatures are `Int` (the claims only involve the
  comparisons `> 30` and `> 35` at integral values).
* A fallible Python call is an `Except String` value; an abstract
  external outcome (HTTP call, database commit) is an explicit input.
* Python truthiness of an optional string (`None` and `""` are falsy)
  is the `truthyOpt` normalisation below.
-/

/-- The three risk levels used throughout the service
(strings `low` / `medium` / `high` in the Python code). -/
inductive RiskLevel
  | low
  | medium
  | high
deriving DecidableEq

/-- Delivery status of an `EmergencyNotification`
(`status` enum column in `app/models/emergency_notification.py`). -/
inductive NotifStatus
  | pending
  | sent
  | delivered
  | failed
deriving DecidableEq

/-- A `{score, level}` dictionary as returned by
`_calculate_age_risk`, `_calculate_trimester_risk` and
`_calculate_location_risk` in `risk_service.py`. -/
structure FactorResult where
  score : Nat
  level : RiskLevel
deriving DecidableEq

/-- Python truthiness of an optional string: `None` and the empty
string are falsy, everything else is truthy. -/
def truthyOpt (o : Option String) : Option String :=
  match o with
  | some s => if s = "" then none else some s
  | none => none

/-- The patient attributes declared by the ORM model
(`app/models/patient.py`) that the risk and notification services
read.  `between_17_35` is modelled three-valued: `none` = the
attribute is absent from the object, `some none` = the attribute is
present with value `None` (the state of an unpersisted `Patient`,
whose column default only applies at insert), and `some (some b)` = a
boolean value.  The model declares no `trimester` column, property or
attribute (only the `get_trimester`/`set_trimester` methods, the
latter a no-op), and nothing in the repository ever sets one on an
instance, so there is no `trimester` field here: the
`patient.trimester` read in `assess_risk` raises `AttributeError`
(see `patient_trimester_read`). -/
structure Patient where
  name : String
  age : Int
  pregnancy_icd10 : Option String
  comorbidity_icd10 : Option String
  weeks_pregnant : Option Int
  zip_code : String
  medications : Option String
  between_17_35 : Option (Option Bool)
deriving DecidableEq

/-- `Patient.get_conditions`: the legacy conditions list is rebuilt
from the two ICD-10 fields (pregnancy first, then comorbidity),
skipping falsy values. -/
def Patient.get_conditions (p : Patient) : List String :=
  (truthyOpt p.pregnancy_icd10).toList ++ (truthyOpt p.comorbidity_icd10).toList

/-- `Patient.get_trimester`: derives the trimester from
`weeks_pregnant`; `None` and `0` weeks (falsy) give no trimester. -/
def get_trimester (weeks_pregnant : Option Int) : Option Int :=
  match weeks_pregnant with
  | some w =>
      if w = 0 then none
      else if w ≤ 12 then some 1
      else if w ≤ 24 then some 2
      else some 3
  | none => none

/-- `pre` is a prefix of `s` (structural char-list version of Python
`str.startswith`). -/
def strStartsWith (pre s : String) : Bool :=
  List.isPrefixOf pre.data s.data

/-- ASCII whitespace, as stripped by `str.strip()` on the data at
hand. -/
def isSpaceChar (c : Char) : Bool :=
  c = ' ' || c = '\t' || c = '\n' || c = '\r'

/-- Python `str.strip()`: drop whitespace from both ends. -/
def strTrim (s : String) : String :=
  ⟨((s.data.dropWhile isSpaceChar).reverse.dropWhile isSpaceChar).reverse⟩

/-- Split a character list at a separator character (Python
`str.split(sep)`: an empty input yields one empty field). -/
def splitOnCharAux (sep : Char) : List Char → List Char → List String
  | acc, [] => [⟨acc.reverse⟩]
  | acc, c :: rest =>
      if c = sep then ⟨acc.reverse⟩ :: splitOnCharAux sep [] rest
      else splitOnCharAux sep (c :: acc) rest

/-- Python `s.split(sep)` for a one-character separator. -/
def splitOnChar (sep : Char) (s : String) : List String :=
  splitOnCharAux sep [] s.data

/-- `Patient.get_medications_list`: semicolon-split of the
`medications` text, trimmed, empty entries dropped; falsy field gives
the empty list. -/
def Patient.get_medications_list (p : Patient) : List String :=
  match truthyOpt p.medications with
  | some s => ((splitOnChar ';' s).map strTrim).filter (fun m => m ≠ "")
  | none => []

/-- The weather attributes assembled by
`WeatherService.get_weather_data`. -/
structure WeatherData where
  temperature : Int
  feels_like : Int
  humidity : Int
  pressure : Int
  description : String
  is_heat_wave : Bool
  heat_index : Int
deriving DecidableEq

/-- The default weather dictionary returned by the weather service when
the HTTP request itself fails (`requests.exceptions.RequestException`). -/
def defaultWeatherData : WeatherData :=
  { temperature := 25, feels_like := 25, humidity := 50, pressure := 1013
    description := "Unknown", is_heat_wave := false, heat_index := 25 }

/-- The parsed fields of a successful (HTTP 200) OpenWeatherMap
response.  `heat_index` abstracts the floating-point heat-index
computation, which no claim depends on. -/
structure WeatherApiResponse where
  temp : Int
  feels_like : Int
  humidity : Int
  pressure : Int
  description : String
  heat_index : Int
deriving DecidableEq

/-- Outcome of the external weather HTTP call: a 200 response with
parsed fields, a non-200 status, or a request-level failure (network
error or timeout). -/
inductive WeatherOutcome
  | success (r : WeatherApiResponse)
  | httpError (status : Nat)
  | requestError
deriving DecidableEq

/-- `WeatherService.get_weather_data`: a 200 response is turned into
the weather dictionary (with `is_heat_wave` set when the temperature
exceeds 35); a non-200 status raises `ExternalAPIException`; a
request-level failure is caught inside the service, which returns the
default weather values instead of raising. -/
def get_weather_data : WeatherOutcome → Except String WeatherData
  | .success r =>
      .ok { temperature := r.temp, feels_like := r.feels_like
            humidity := r.humidity, pressure := r.pressure
            description := r.description
            is_heat_wave := decide (r.temp > 35)
            heat_index := r.heat_index }
  | .httpError status =>
      .error ("Weather API returned status " ++ toString status)
  | .requestError => .ok defaultWeatherData

/-- `_calculate_age_risk` in `risk_service.py`. -/
def calculate_age_risk (age : Int) : FactorResult :=
  if (17 ≤ age ∧ age ≤ 20) ∨ (31 ≤ age ∧ age ≤ 35) then { score := 2, level := .high }
  else if 21 ≤ age ∧ age ≤ 30 then { score := 1, level := .medium }
  else { score := 0, level := .low }

/-- `_calculate_trimester_risk`: the argument is whatever value a
`patient.trimester` read would supply; `None` compares unequal to `3`
and `1` and falls into the final branch.  (In the repository the read
itself raises before this function is ever called.) -/
def calculate_trimester_risk (trimester : Option Int) : FactorResult :=
  if trimester = some 3 then { score := 2, level := .high }
  else if trimester = some 1 then { score := 1, level := .medium }
  else { score := 0, level := .low }

/-- `_calculate_location_risk` in `risk_service.py`. -/
def calculate_location_risk (weather_data : WeatherData) : FactorResult :=
  if weather_data.is_heat_wave then { score := 2, level := .high }
  else if weather_data.temperature > 30 then { score := 1, level := .medium }
  else { score := 0, level := .low }

/-- The `HIGH_RISK_PREGNANCY_CODES` table of `RiskAssessmentService`. -/
def HIGH_RISK_PREGNANCY_CODES : List (String × String) :=
  [("O24.4", "Gestational diabetes mellitus"),
   ("O13", "Gestational hypertension"),
   ("O14", "Pre-eclampsia"),
   ("O15", "Eclampsia"),
   ("O16", "Unspecified maternal hypertension"),
   ("O26.2", "Pregnancy care for abnormal findings"),
   ("O26.9", "Pregnancy-related condition, unspecified"),
   ("O36.5", "Maternal care for poor fetal growth"),
   ("O09.3", "Supervision of high-risk pregnancy, multigravida"),
   ("O09.5", "Supervision of elderly primigravida")]

/-- The `HIGH_RISK_COMORBIDITY_CODES` table. -/
def HIGH_RISK_COMORBIDITY_CODES : List (String × String) :=
  [("I10", "Essential hypertension"),
   ("E11.9", "Type 2 diabetes mellitus without complications"),
   ("E03.9", "Hypothyroidism, unspecified"),
   ("J45.9", "Asthma, unspecified"),
   ("D50.9", "Iron deficiency anemia, unspecified"),
   ("E66.9", "Obesity, unspecified")]

/-- The `MEDIUM_RISK_COMORBIDITY_CODES` table. -/
def MEDIUM_RISK_COMORBIDITY_CODES : List (String × String) :=
  [("E66.0", "Obesity due to excess calories"),
   ("E66.01", "Morbid obesity due to excess calories"),
   ("E66.09", "Other obesity due to excess calories"),
   ("D50.0", "Iron deficiency anemia secondary to blood loss"),
   ("D50.8", "Other iron deficiency anemias"),
   ("J45.0", "Predominantly allergic asthma"),
   ("J45.1", "Nonallergic asthma"),
   ("J45.8", "Mixed asthma"),
   ("J45.9", "Unspecified asthma")]

/-- The `HIGH_RISK_MEDICATIONS` table (keys in insertion order). -/
def HIGH_RISK_MEDICATIONS : List (String × String) :=
  [("Insulin", "Diabetes management - requires close monitoring"),
   ("Labetalol", "Hypertension management - blood pressure monitoring needed"),
   ("Metformin", "Diabetes management - kidney function monitoring"),
   ("Warfarin", "Anticoagulant - bleeding risk"),
   ("Phenytoin", "Antiepileptic - teratogenic risk"),
   ("Lithium", "Mood stabilizer - teratogenic risk"),
   ("ACE inhibitors", "Hypertension - contraindicated in pregnancy"),
   ("ARBs", "Hypertension - contraindicated in pregnancy")]

/-- The `MEDIUM_RISK_MEDICATIONS` table. -/
def MEDIUM_RISK_MEDICATIONS : List (String × String) :=
  [("Levothyroxine", "Thyroid hormone - requires dose adjustment"),
   ("Ferrous sulfate", "Iron supplementation - GI side effects"),
   ("Folic acid", "Prenatal vitamin - generally safe"),
   ("Calcium", "Mineral supplement - generally safe"),
   ("Vitamin D", "Vitamin supplement - generally safe")]

/-- Python dictionary key membership (`code in TABLE`). -/
def dictContainsKey (table : List (String × String)) (code : String) : Bool :=
  table.any (fun kv => kv.1 = code)

/-- Result dictionary of `_calculate_conditions_risk`. -/
structure ConditionsResult where
  score : Nat
  level : RiskLevel
  details : List String
  pregnancy_codes : List String
  comorbidity_codes : List String
deriving DecidableEq

/-- `_calculate_conditions_risk`: the direct ICD-10 attributes are
collected first, then the legacy `get_conditions` list is classified by
its `O` first letter and appended — on the stored `Patient` model the
legacy list replays the same two attributes, so a direct code appears
twice.  Each pregnancy code in a known high-risk entry adds 2, any
other `O`-code adds 1; each comorbidity code adds 2 or 1 via the two
comorbidity tables. -/
def calculate_conditions_risk (p : Patient) : ConditionsResult :=
  let direct_pregnancy := (truthyOpt p.pregnancy_icd10).toList
  let direct_comorbidity := (truthyOpt p.comorbidity_icd10).toList
  let legacy_codes := p.get_conditions
  let pregnancy_codes := direct_pregnancy ++ legacy_codes.filter (fun c => strStartsWith "O" c)
  let comorbidity_codes :=
    direct_comorbidity ++ legacy_codes.filter (fun c => !(strStartsWith "O" c))
  let pregnancy_step := fun (acc : Nat × List String) (code : String) =>
    if dictContainsKey HIGH_RISK_PREGNANCY_CODES code then
      (acc.1 + 2, acc.2 ++ ["High-risk pregnancy: " ++ code])
    else if strStartsWith "O" code then
      (acc.1 + 1, acc.2 ++ ["Pregnancy condition: " ++ code])
    else acc
  let comorbidity_step := fun (acc : Nat × List String) (code : String) =>
    if dictContainsKey HIGH_RISK_COMORBIDITY_CODES code then
      (acc.1 + 2, acc.2 ++ ["High-risk comorbidity: " ++ code])
    else if dictContainsKey MEDIUM_RISK_COMORBIDITY_CODES code then
      (acc.1 + 1, acc.2 ++ ["Medium-risk comorbidity: " ++ code])
    else acc
  let acc1 := pregnancy_codes.foldl pregnancy_step (0, [])
  let acc2 := comorbidity_codes.foldl comorbidity_step acc1
  { score := acc2.1
    level := if acc2.1 ≥ 6 then .high else if acc2.1 ≥ 3 then .medium else .low
    details := acc2.2
    pregnancy_codes := pregnancy_codes
    comorbidity_codes := comorbidity_codes }

/-- `needle.lower() in hay.lower()` on explicit character lists. -/
def charsContain : List Char → List Char → Bool
  | needle, [] => needle.isEmpty
  | needle, c :: rest => List.isPrefixOf needle (c :: rest) || charsContain needle rest

/-- Case-insensitive substring test used for medication matching. -/
def containsCi (needle hay : String) : Bool :=
  charsContain (needle.data.map Char.toLower) (hay.data.map Char.toLower)

/-- One iteration of the medication loop in
`_calculate_medications_risk`: the high-risk table is scanned first
(first match adds 2 and stops); only when no high-risk entry matches
this medication is the medium-risk table scanned (first match adds 1). -/
def medication_step (acc : Nat × List String) (medication : String) : Nat × List String :=
  match HIGH_RISK_MEDICATIONS.find? (fun kv => containsCi kv.1 medication) with
  | some kv =>
      (acc.1 + 2, acc.2 ++ ["High-risk medication: " ++ medication ++ " - " ++ kv.2])
  | none =>
      match MEDIUM_RISK_MEDICATIONS.find? (fun kv => containsCi kv.1 medication) with
      | some kv =>
          (acc.1 + 1, acc.2 ++ ["Medium-risk medication: " ++ medication ++ " - " ++ kv.2])
      | none => acc

/-- The whole medication loop: score and detail accumulator. -/
def medications_fold (medications : List String) : Nat × List String :=
  medications.foldl medication_step (0, [])

/-- Contribution of a single medication to the medications sub-score:
2 on a high-risk table match, else 1 on a medium-risk table match,
else 0 — independent of every other medication in the list. -/
def medication_item_score (medication : String) : Nat :=
  match HIGH_RISK_MEDICATIONS.find? (fun kv => containsCi kv.1 medication) with
  | some _ => 2
  | none =>
      match MEDIUM_RISK_MEDICATIONS.find? (fun kv => containsCi kv.1 medication) with
      | some _ => 1
      | none => 0

/-- Result dictionary of `_calculate_medications_risk`. -/
structure MedicationsResult where
  score : Nat
  level : RiskLevel
  details : List String
  medications : List String
deriving DecidableEq

/-- `_calculate_medications_risk`: the `Patient` model always provides
`get_medications_list`, so the list comes from there. -/
def calculate_medications_risk (p : Patient) : MedicationsResult :=
  let medications := p.get_medications_list
  let acc := medications_fold medications
  { score := acc.1
    level := if acc.1 ≥ 4 then .high else if acc.1 ≥ 2 then .medium else .low
    details := acc.2
    medications := medications }

/-- Result dictionary of `_calculate_age_group_risk`. -/
structure AgeGroupResult where
  score : Nat
  level : RiskLevel
  details : List String
deriving DecidableEq

/-- `_calculate_age_group_risk`, called only with a non-`None` flag. -/
def calculate_age_group_risk (between_17_35 : Bool) : AgeGroupResult :=
  if between_17_35 then
    { score := 0, level := .low, details := ["Optimal age range (17-35 years)"] }
  else
    { score := 2, level := .high, details := ["Outside optimal age range (17-35 years)"] }

/-- The location part of `assess_risk`: on a weather dictionary the
location factor is computed from it; on `ExternalAPIException` the
`except` branch adds a flat medium factor of 1, records no heat wave
and substitutes the same default dictionary the weather service uses.
Returns (factor, heat-wave flag, weather snapshot). -/
def location_factor (w : WeatherOutcome) : FactorResult × Bool × WeatherData :=
  match get_weather_data w with
  | .ok weather_data =>
      (calculate_location_risk weather_data, weather_data.is_heat_wave, weather_data)
  | .error _ =>
      ({ score := 1, level := .medium }, false,
       { temperature := 25, feels_like := 25, humidity := 50, pressure := 1013
         description := "Unknown", is_heat_wave := false, heat_index := 25 })

/-- The age-group part of `assess_risk`: the factor is computed only
when the `between_17_35` attribute exists and is not `None`
(`hasattr(...) and ... is not None`); otherwise it contributes 0 and no
`age_group_risk` entry is added to the breakdown. -/
def age_group_factor (flag : Option (Option Bool)) : Nat × Option RiskLevel :=
  match flag with
  | some (some b) =>
      ((calculate_age_group_risk b).score, some (calculate_age_group_risk b).level)
  | _ => (0, none)

/-- Final classification of the total score at the end of
`assess_risk` (thresholds 3 and 5). -/
def finalRiskLevel (risk_score : Nat) : RiskLevel :=
  if risk_score ≤ 3 then .low
  else if risk_score ≤ 5 then .medium
  else .high

/-- The `factors` breakdown dictionary built by `assess_risk`.
`age_group_risk` is optional: `none` means the key is absent. -/
structure Factors where
  age_risk : RiskLevel
  trimester_risk : RiskLevel
  location_risk : RiskLevel
  heat_wave : Bool
  conditions_risk : RiskLevel
  conditions_details : List String
  medications_risk : RiskLevel
  medications_details : List String
  age_group_risk : Option RiskLevel
deriving DecidableEq

/-- The dictionary returned by `assess_risk`. -/
structure Assessment where
  risk_level : RiskLevel
  risk_score : Nat
  factors : Factors
  heat_wave_risk : Bool
  weather_data : WeatherData
deriving DecidableEq

/-- The message of the `AttributeError` raised by the
`patient.trimester` read (modelled without the quote characters of the
Python rendering). -/
def trimester_attribute_error : String :=
  "AttributeError: Patient object has no attribute trimester"

/-- The `patient.trimester` read at `risk_service.py:77`.  The
`Patient` model declares no `trimester` column, property or attribute,
and nothing in the repository assigns one to an instance (the update
route's `setattr` is gated by `hasattr`, which is false for
`trimester`), so the read raises `AttributeError` for every instance. -/
def patient_trimester_read (_p : Patient) : Except String (Option Int) :=
  .error trimester_attribute_error

/-- The scoring body of `RiskAssessmentService.assess_risk`
(`risk_service.py:72-135`) downstream of the `patient.trimester` read,
as a function of the value that read would have supplied.  At run time
this construction is unreachable — the read raises first — but it is
the code as written: the six factor contributions are summed and the
total classified by `finalRiskLevel`. -/
def assessment_given_trimester (p : Patient) (trimester : Option Int)
    (w : WeatherOutcome) : Assessment :=
  let age_risk := calculate_age_risk p.age
  let trimester_risk := calculate_trimester_risk trimester
  let location := location_factor w
  let conditions_risk := calculate_conditions_risk p
  let medications_risk := calculate_medications_risk p
  let age_group := age_group_factor p.between_17_35
  let risk_score := age_risk.score + trimester_risk.score + location.1.score +
    conditions_risk.score + medications_risk.score + age_group.1
  { risk_level := finalRiskLevel risk_score
    risk_score := risk_score
    factors :=
      { age_risk := age_risk.level
        trimester_risk := trimester_risk.level
        location_risk := location.1.level
        heat_wave := location.2.1
        conditions_risk := conditions_risk.level
        conditions_details := conditions_risk.details
        medications_risk := medications_risk.level
        medications_details := medications_risk.details
        age_group_risk := age_group.2 }
    heat_wave_risk := location.2.1
    weather_data := location.2.2 }

/-- `RiskAssessmentService.assess_risk` on the repository's `Patient`
model: the `patient.trimester` read raises `AttributeError` before the
weather, conditions, medications and age-group factors and before the
final classification, so every call propagates that error and no
`Assessment` is ever produced. -/
def assess_risk (p : Patient) (w : WeatherOutcome) : Except String Assessment :=
  match patient_trimester_read p with
  | .error e => .error e
  | .ok trimester => .ok (assessment_given_trimester p trimester w)

/-- A health-facility row, with the columns the notification service
reads (`app/models/health_facility.py`). -/
structure HealthFacility where
  id : Nat
  facility_name : String
  facility_phone_number : Option String
  short_description : String
deriving DecidableEq

/-- `_find_nearest_hospital`: first facility whose short description is
`HOSP` or `HOSP-EC` and whose phone number is not null (a query error
is caught and also yields `None`, observationally the same as an empty
result). -/
def find_nearest_hospital (facilities : List HealthFacility) : Option HealthFacility :=
  facilities.find? (fun f =>
    (f.short_description = "HOSP" || f.short_description = "HOSP-EC") &&
      f.facility_phone_number.isSome)

/-- `_find_nearest_clinic`: same shape with descriptions `DTC` or
`HOSP-EC`. -/
def find_nearest_clinic (facilities : List HealthFacility) : Option HealthFacility :=
  facilities.find? (fun f =>
    (f.short_description = "DTC" || f.short_description = "HOSP-EC") &&
      f.facility_phone_number.isSome)

/-- Abstract outcomes of the external steps a `NotificationService`
branch performs.  `patient_message` is the outcome of the
`MessageService.generate_message(...)` call: `some text` if the call
returns text, `none` if it raises — in the source tree `MessageService`
defines no `generate_message` method at all, so at run time the call
raises `AttributeError` and the handlers take their exception path; the
embedding keeps both outcomes so no theorem depends on which one
occurs.  The booleans are the database commit outcomes, and
`send_step_raises` covers an exception escaping `_send_doctor_call`
(its internal try already converts ordinary failures into
`mark_as_failed`). -/
structure EscEnv where
  facilities : List HealthFacility
  patient_message : Option String
  emergency_commit_ok : Bool
  send_step_raises : Bool
  notification_commit_ok : Bool
  next_emergency_id : Nat
deriving DecidableEq

/-- The result dictionary of a `process_risk_notification` branch.
The per-branch dictionaries have different key sets; absent keys are
`none` here (`message` stands for both `message` and the high-risk
`patient_message` key). -/
structure NotifResult where
  success : Bool
  risk_level : RiskLevel
  action_taken : String
  message : Option String
  hospital : Option HealthFacility
  emergency_notification_id : Option Nat
  clinic : Option (Option HealthFacility)
deriving DecidableEq

/-- String form of a risk level. -/
def riskLevelName : RiskLevel → String
  | .low => "low"
  | .medium => "medium"
  | .high => "high"

/-- `risk_level.upper()` as used in the fallback message. -/
def riskLevelUpper : RiskLevel → String
  | .low => "LOW"
  | .medium => "MEDIUM"
  | .high => "HIGH"

/-- `_create_fallback_notification`: pure string formatting, always
`success=True` and `action_taken=fallback_notification`. -/
def create_fallback_notification (p : Patient) (risk_level : RiskLevel) : NotifResult :=
  { success := true
    risk_level := risk_level
    action_taken := "fallback_notification"
    message := some ("Уведомление о риске - " ++ riskLevelUpper risk_level ++
      "\n\nПациент: " ++ p.name ++ "\nУровень риска: " ++ riskLevelName risk_level ++
      "\n\nПожалуйста, обратитесь к врачу для консультации.")
    hospital := none
    emergency_notification_id := none
    clinic := none }

/-- `_handle_high_risk`: find a hospital (fallback when none), create
and commit the emergency notification, run `_send_doctor_call`,
generate the patient message, create and commit the patient
notification; every exception along the way is caught by the handler
and converted into the fallback result. -/
def handle_high_risk (p : Patient) (env : EscEnv) : NotifResult :=
  match find_nearest_hospital env.facilities with
  | none => create_fallback_notification p .high
  | some hospital =>
      if !env.emergency_commit_ok then create_fallback_notification p .high
      else if env.send_step_raises then create_fallback_notification p .high
      else
        match env.patient_message with
        | none => create_fallback_notification p .high
        | some patient_message =>
            if !env.notification_commit_ok then create_fallback_notification p .high
            else
              { success := true
                risk_level := .high
                action_taken := "doctor_called"
                message := some patient_message
                hospital := some hospital
                emergency_notification_id := some env.next_emergency_id
                clinic := none }

/-- `_handle_medium_risk`: generate the enhanced message, commit the
notification, look up a clinic opportunistically (absence is not an
error); exceptions become the fallback result. -/
def handle_medium_risk (p : Patient) (env : EscEnv) : NotifResult :=
  match env.patient_message with
  | none => create_fallback_notification p .medium
  | some message =>
      if !env.notification_commit_ok then create_fallback_notification p .medium
      else
        { success := true
          risk_level := .medium
          action_taken := "enhanced_notification_sent"
          message := some message
          hospital := none
          emergency_notification_id := none
          clinic := some (find_nearest_clinic env.facilities) }

/-- `_handle_low_risk`: generate the standard message and commit the
notification; exceptions become the fallback result. -/
def handle_low_risk (p : Patient) (env : EscEnv) : NotifResult :=
  match env.patient_message with
  | none => create_fallback_notification p .low
  | some message =>
      if !env.notification_commit_ok then create_fallback_notification p .low
      else
        { success := true
          risk_level := .low
          action_taken := "standard_notification_sent"
          message := some message
          hospital := none
          emergency_notification_id := none
          clinic := none }

/-- `Patient.get_risk_level`: calls `assess_risk` and projects its
`risk_level` entry.  On the repository's model the call always raises
(`AttributeError` at the trimester read), so the error propagates. -/
def get_risk_level (p : Patient) (w : WeatherOutcome) : Except String RiskLevel :=
  match assess_risk p w with
  | .ok a => .ok a.risk_level
  | .error e => .error e

/-- The level dispatch inside `process_risk_notification`.  Each
handler catches its own exceptions, so the dispatch itself is total —
but in the repository it is unreachable: `get_risk_level` raises
before any level is produced. -/
def risk_dispatch (level : RiskLevel) (p : Patient) (env : EscEnv) : NotifResult :=
  match level with
  | .high => handle_high_risk p env
  | .medium => handle_medium_risk p env
  | .low => handle_low_risk p env

/-- `NotificationService.process_risk_notification`: the boundary
`except Exception` clause does not return a fallback result — it
re-raises the failure as `ExternalAPIException` (modelled as
`Except.error`).  A failing `Patient.query.get_or_404` lookup is the
`none` case, and with a found patient the `get_risk_level` call raises
(`AttributeError` at the trimester read), so the boundary re-raise
fires on every input and the level dispatch is dead code. -/
def process_risk_notification (patient_lookup : Option Patient) (w : WeatherOutcome)
    (env : EscEnv) : Except String NotifResult :=
  match patient_lookup with
  | none => .error "Failed to process risk notification: patient not found"
  | some p =>
      match get_risk_level p w with
      | .error e => .error ("Failed to process risk notification: " ++ e)
      | .ok level => .ok (risk_dispatch level p env)

/-- The mutable columns of an `EmergencyNotification` record touched by
the four status operations; timestamps are abstract `Nat` instants. -/
structure EmergencyNotification where
  status : NotifStatus
  sent_at : Option Nat
  delivered_at : Option Nat
  response_received : Bool
  response_message : Option String
  response_received_at : Option Nat
deriving DecidableEq

/-- A freshly created record (`status='pending'`, nothing stamped). -/
def new_emergency_notification : EmergencyNotification :=
  { status := .pending, sent_at := none, delivered_at := none
    response_received := false, response_message := none, response_received_at := none }

/-- `mark_as_sent`: unconditionally sets `sent` and stamps `sent_at`. -/
def mark_as_sent (now : Nat) (n : EmergencyNotification) : EmergencyNotification :=
  { n with status := .sent, sent_at := some now }

/-- `mark_as_delivered`: unconditionally sets `delivered` and stamps
`delivered_at`. -/
def mark_as_delivered (now : Nat) (n : EmergencyNotification) : EmergencyNotification :=
  { n with status := .delivered, delivered_at := some now }

/-- `mark_as_failed`: unconditionally sets `failed`. -/
def mark_as_failed (n : EmergencyNotification) : EmergencyNotification :=
  { n with status := .failed }

/-- `add_response`: records the response fields, leaves `status`
untouched. -/
def add_response (response_message : String) (now : Nat)
    (n : EmergencyNotification) : EmergencyNotification :=
  { n with response_received := true, response_message := some response_message
           response_received_at := some now }

/-- `NotificationService.update_emergency_notification` on a fetched
record: a truthy response message attaches a response, otherwise the
record is marked delivered — whatever its current status. -/
def update_emergency_notification (response_message : Option String) (now : Nat)
    (n : EmergencyNotification) : EmergencyNotification :=
  match truthyOpt response_message with
  | some msg => add_response msg now n
  | none => mark_as_delivered now n

/-- The four status operations, for quantifying over call sequences. -/
inductive NotificationOp
  | markSent (t : Nat)
  | markDelivered (t : Nat)
  | markFailed
  | addResponse (msg : String) (t : Nat)
deriving DecidableEq

/-- Apply one status operation. -/
def applyOp : NotificationOp → EmergencyNotification → EmergencyNotification
  | .markSent t, n => mark_as_sent t n
  | .markDelivered t, n => mark_as_delivered t n
  | .markFailed, n => mark_as_failed n
  | .addResponse msg t, n => add_response msg t n

/-- Apply a sequence of status operations in order. -/
def applyOps (ops : List NotificationOp) (n : EmergencyNotification) : EmergencyNotification :=
  ops.foldl (fun acc op => applyOp op acc) n

/-! ### Concrete inputs used by the counterexamples and witnesses -/

/-- A patient whose only risk datum is the pregnancy code `O14`. -/
def c1_patient : Patient :=
  { name := "P", age := 40, pregnancy_icd10 := some "O14", comorbidity_icd10 := none
    weeks_pregnant := none, zip_code := "00000", medications := none
    between_17_35 := none }

/-- An escalation environment with no facilities and a failing message
capability. -/
def c2_env : EscEnv :=
  { facilities := [], patient_message := none, emergency_commit_ok := true
    send_step_raises := false, notification_commit_ok := true, next_emergency_id := 1 }

/-- A found patient (age 19, 30 weeks, code `O14`, flag true). -/
def c2_patient : Patient :=
  { name := "Anna", age := 19, pregnancy_icd10 := some "O14", comorbidity_icd10 := none
    weeks_pregnant := some 30, zip_code := "10001", medications := none
    between_17_35 := some (some true) }

/-- A patient with no diagnosis codes, medications or flag. -/
def c3_patient : Patient :=
  { name := "P", age := 40, pregnancy_icd10 := none, comorbidity_icd10 := none
    weeks_pregnant := none, zip_code := "00000", medications := none
    between_17_35 := none }

/-- A patient whose `between_17_35` attribute exists with value `None`. -/
def c4_none_patient : Patient :=
  { name := "P", age := 30, pregnancy_icd10 := none, comorbidity_icd10 := none
    weeks_pregnant := none, zip_code := "00000", medications := none
    between_17_35 := some none }

/-- The scenario patient of the spec walkthrough: age 19, 30 weeks
pregnant, code `O14`, no medications, flag present and true. -/
def c7_patient : Patient :=
  { name := "A", age := 19, pregnancy_icd10 := some "O14", comorbidity_icd10 := none
    weeks_pregnant := some 30, zip_code := "10001", medications := none
    between_17_35 := some (some true) }

/-- A successful weather response at 36 °C, which sets the heat-wave
flag. -/
def c7_weather : WeatherOutcome :=
  .success { temp := 36, feels_like := 38, humidity := 50, pressure := 1013
             description := "clear sky", heat_index := 41 }

/-! ### Helper lemmas -/

/-- The total of the scoring construction is the sum of the six
factor contributions. -/
theorem assessment_score_eq (p : Patient) (t : Option Int) (w : WeatherOutcome) :
    (assessment_given_trimester p t w).risk_score =
      (calculate_age_risk p.age).score + (calculate_trimester_risk t).score +
      (location_factor w).1.score + (calculate_conditions_risk p).score +
      (calculate_medications_risk p).score + (age_group_factor p.between_17_35).1 := rfl

/-- `assess_risk` propagates the `AttributeError` of the
`patient.trimester` read on every input: no assessment is ever
returned. -/
theorem assess_risk_always_raises (p : Patient) (w : WeatherOutcome) :
    assess_risk p w = Except.error trimester_attribute_error := rfl

/-- Every branch of the high-risk handler returns `success=True`. -/
theorem handle_high_risk_success (p : Patient) (env : EscEnv) :
    (handle_high_risk p env).success = true := by
  obtain ⟨fac, msg, ec, sr, nc, nid⟩ := env
  unfold handle_high_risk
  cases hfind : find_nearest_hospital fac with
  | none => rfl
  | some h => cases ec <;> cases sr <;> cases msg <;> cases nc <;> rfl

/-- Every branch of the medium-risk handler returns `success=True`. -/
theorem handle_medium_risk_success (p : Patient) (env : EscEnv) :
    (handle_medium_risk p env).success = true := by
  obtain ⟨fac, msg, ec, sr, nc, nid⟩ := env
  unfold handle_medium_risk
  cases msg <;> cases nc <;> rfl

/-- Every branch of the low-risk handler returns `success=True`. -/
theorem handle_low_risk_success (p : Patient) (env : EscEnv) :
    (handle_low_risk p env).success = true := by
  obtain ⟨fac, msg, ec, sr, nc, nid⟩ := env
  unfold handle_low_risk
  cases msg <;> cases nc <;> rfl

/-- The level dispatch always returns `success=True`, whatever the
level. -/
theorem risk_dispatch_success (level : RiskLevel) (p : Patient) (env : EscEnv) :
    (risk_dispatch level p env).success = true := by
  unfold risk_dispatch
  cases level
  case low => exact handle_low_risk_success p env
  case medium => exact handle_medium_risk_success p env
  case high => exact handle_high_risk_success p env

/-- One medication-loop step adds exactly that medication's own
contribution. -/
theorem medication_step_score (acc : Nat × List String) (medication : String) :
    (medication_step acc medication).1 = acc.1 + medication_item_score medication := by
  unfold medication_step medication_item_score
  cases h1 : HIGH_RISK_MEDICATIONS.find? (fun kv => containsCi kv.1 medication) with
  | some kv => rfl
  | none =>
      cases h2 : MEDIUM_RISK_MEDICATIONS.find? (fun kv => containsCi kv.1 medication) with
      | some kv => rfl
      | none =>
          show acc.1 = acc.1 + 0
          omega

/-- The medication loop sums the per-medication contributions,
whatever the starting accumulator. -/
theorem medications_fold_score_general (medications : List String) :
    ∀ acc : Nat × List String,
      (medications.foldl medication_step acc).1 =
        acc.1 + (medications.map medication_item_score).sum := by
  induction medications with
  | nil => intro acc; simp
  | cons m rest ih =>
      intro acc
      rw [List.foldl_cons, List.map_cons, List.sum_cons, ih, medication_step_score]
      omega
/-! ### Claim theorems -/

/-- C1 (counterexample): for the patient whose only risk datum is the
pregnancy code `O14` (no comorbidity, no medications), the claimed
conditions sub-score of 2 is doubly wrong: the conditions helper
`_calculate_conditions_risk` yields 4, because the code is collected
once from the direct attribute and once more through the legacy
`get_conditions` compatibility path, and during `assess` no conditions
factor is computed at all — the call raises `AttributeError` at the
`patient.trimester` read before the conditions step. -/
theorem claim_C1_counterexample :
    (calculate_conditions_risk c1_patient).score = 4 ∧
    (calculate_conditions_risk c1_patient).pregnancy_codes = ["O14", "O14"] ∧
    (4 : Nat) ≠ 2 ∧
    assess_risk c1_patient WeatherOutcome.requestError =
      Except.error trimester_attribute_error :=
  ⟨rfl, rfl, by decide, rfl⟩

/-- C1 (amended): for every patient whose pregnancy code is `O14`,
with no comorbidity code and no medications, the conditions helper
`_calculate_conditions_risk` yields a sub-score of exactly 4 — the
high-risk code is counted once directly and once via the legacy
conditions list — but no conditions factor is computed during assess,
which raises `AttributeError` at the undeclared `patient.trimester`
read on every call; in the scoring construction downstream of that
read (unreachable at run time) the sub-score contributes exactly 4 to
the total. -/
theorem claim_C1_amended (name : String) (age : Int) (weeks t : Option Int)
    (zip : String) (flag : Option (Option Bool)) (w : WeatherOutcome) :
    (calculate_conditions_risk
        (Patient.mk name age (some "O14") none weeks zip none flag)).score = 4 ∧
    assess_risk (Patient.mk name age (some "O14") none weeks zip none flag) w =
      Except.error trimester_attribute_error ∧
    (assessment_given_trimester
        (Patient.mk name age (some "O14") none weeks zip none flag) t w).risk_score =
      (assessment_given_trimester
        (Patient.mk name age none none weeks zip none flag) t w).risk_score + 4 := by
  refine ⟨rfl, rfl, ?_⟩
  rw [assessment_score_eq, assessment_score_eq]
  have hc1 : (calculate_conditions_risk
      (Patient.mk name age (some "O14") none weeks zip none flag)).score = 4 := rfl
  have hc0 : (calculate_conditions_risk
      (Patient.mk name age none none weeks zip none flag)).score = 0 := rfl
  have hm1 : (calculate_medications_risk
      (Patient.mk name age (some "O14") none weeks zip none flag)).score = 0 := rfl
  have hm0 : (calculate_medications_risk
      (Patient.mk name age none none weeks zip none flag)).score = 0 := rfl
  have ha : (Patient.mk name age (some "O14") none weeks zip none flag).age =
      (Patient.mk name age none none weeks zip none flag).age := rfl
  have hf : (Patient.mk name age (some "O14") none weeks zip none flag).between_17_35 =
      (Patient.mk name age none none weeks zip none flag).between_17_35 := rfl
  rw [hc1, hc0, hm1, hm0, ha, hf]
  omega

/-- C2 (counterexample): `process_risk_notification` raises past its
own boundary even for a found patient — `get_risk_level` crashes with
`AttributeError` at the undeclared `patient.trimester` read and the
boundary `except` clause re-raises it as `ExternalAPIException`
instead of returning a fallback result. -/
theorem claim_C2_counterexample :
    process_risk_notification (some c2_patient) WeatherOutcome.requestError c2_env =
      Except.error ("Failed to process risk notification: " ++ trimester_attribute_error) :=
  rfl

/-- C2 (amended): `process_risk_notification` raises
`ExternalAPIException` past its own boundary on every input — for a
missing patient, and for every found patient too, because
`get_risk_level` always crashes at the undeclared `patient.trimester`
read and the boundary `except` re-raises rather than producing a
fallback result; the per-level handlers are therefore unreachable,
but as written the high-risk handler does return a result with
`action_taken = fallback_notification`, without raising, whenever no
hospital-type facility with a known phone number exists. -/
theorem claim_C2_amended (patient_lookup : Option Patient) (w : WeatherOutcome)
    (p : Patient) (env : EscEnv)
    (hhosp : find_nearest_hospital env.facilities = none) :
    (∃ e, process_risk_notification patient_lookup w env = Except.error e) ∧
    (handle_high_risk p env).action_taken = "fallback_notification" := by
  constructor
  · cases patient_lookup with
    | none => exact ⟨_, rfl⟩
    | some q => exact ⟨_, rfl⟩
  · unfold handle_high_risk
    rw [hhosp]
    rfl

/-- C2 (witness): the amended theorem applied to a found patient and
an environment with no facilities. -/
theorem claim_C2_witness :
    (∃ e, process_risk_notification (some c2_patient) WeatherOutcome.requestError c2_env =
      Except.error e) ∧
    (handle_high_risk c2_patient c2_env).action_taken = "fallback_notification" :=
  claim_C2_amended (some c2_patient) WeatherOutcome.requestError c2_patient c2_env rfl

/-- C3 (counterexample): assess never substitutes any weather — at
this concrete patient it raises `AttributeError` at the trimester read
before the weather block — and even the weather machinery itself
treats a network failure differently from the claim: the weather
service returns the default data without raising, and the weather
block of the scoring construction scores that outcome `low` with 0,
not `medium` with 1. -/
theorem claim_C3_counterexample :
    assess_risk c3_patient WeatherOutcome.requestError =
      Except.error trimester_attribute_error ∧
    get_weather_data WeatherOutcome.requestError = Except.ok defaultWeatherData ∧
    (location_factor WeatherOutcome.requestError).1.level = RiskLevel.low ∧
    RiskLevel.low ≠ RiskLevel.medium :=
  ⟨rfl, rfl, rfl, by decide⟩

/-- C3 (amended): assess never performs the weather lookup — every
call raises `AttributeError` at the undeclared `patient.trimester`
read first.  In the weather service itself, a network error or timeout
is caught internally and yields the fixed default weather (temperature
25, no heat wave) without raising, while a non-success API status
raises `ExternalAPIException`; in the weather block of the scoring
construction (unreachable at run time), only the
`ExternalAPIException` branch records the location factor at `medium`
and adds exactly 1 to the total, whereas the default weather returned
after a network failure is scored normally as `low`, adding 0. -/
theorem claim_C3_amended (p : Patient) (t : Option Int) (status : Nat) :
    (∀ w : WeatherOutcome, assess_risk p w = Except.error trimester_attribute_error) ∧
    get_weather_data WeatherOutcome.requestError = Except.ok defaultWeatherData ∧
    get_weather_data (WeatherOutcome.httpError status) =
      Except.error ("Weather API returned status " ++ toString status) ∧
    (location_factor (WeatherOutcome.httpError status)).1 =
      { score := 1, level := RiskLevel.medium } ∧
    (location_factor (WeatherOutcome.httpError status)).2.2 = defaultWeatherData ∧
    (location_factor WeatherOutcome.requestError).1 =
      { score := 0, level := RiskLevel.low } ∧
    (location_factor WeatherOutcome.requestError).2.2 = defaultWeatherData ∧
    (assessment_given_trimester p t (WeatherOutcome.httpError status)).risk_score =
      (assessment_given_trimester p t WeatherOutcome.requestError).risk_score + 1 := by
  refine ⟨fun w => rfl, rfl, rfl, rfl, rfl, rfl, rfl, ?_⟩
  rw [assessment_score_eq, assessment_score_eq]
  have l1 : (location_factor (WeatherOutcome.httpError status)).1.score = 1 := rfl
  have l0 : (location_factor WeatherOutcome.requestError).1.score = 0 := rfl
  rw [l1, l0]
  omega

/-- C4 (counterexample): assess returns no factor breakdown at all —
at this concrete patient it raises `AttributeError` at the trimester
read — and the age-group guard itself skips an attribute that exists
with value `None`, contradicting presence-iff-attribute-exists. -/
theorem claim_C4_counterexample :
    c4_none_patient.between_17_35 = some none ∧
    c4_none_patient.between_17_35 ≠ none ∧
    (age_group_factor c4_none_patient.between_17_35).2 = none ∧
    assess_risk c4_none_patient WeatherOutcome.requestError =
      Except.error trimester_attribute_error :=
  ⟨rfl, by decide, rfl, rfl⟩

/-- C4 (amended): assess never returns a factor breakdown — every call
raises `AttributeError` at the undeclared `patient.trimester` read —
and in the age-group block of the scoring construction (the
`hasattr(...) and ... is not None` guard, unreachable at run time),
the `age_group_risk` factor is produced if and only if the
`between_17_35` attribute exists and its value is not `None`, and
then regardless of whether the boolean value is true or false. -/
theorem claim_C4_amended (p : Patient) (w : WeatherOutcome) (flag : Option (Option Bool)) :
    assess_risk p w = Except.error trimester_attribute_error ∧
    (((age_group_factor flag).2).isSome = true ↔ ∃ b : Bool, flag = some (some b)) := by
  refine ⟨rfl, ?_⟩
  rcases flag with _ | (_ | b)
  · simp [age_group_factor]
  · simp [age_group_factor]
  · simp [age_group_factor]

/-- C5 (counterexample): the status operations carry no guards, so a
reachable sequence leaves the terminal state — a record marked failed
and then updated without a response message (the service calls
`mark_as_delivered`) moves from `failed` to `delivered`. -/
theorem claim_C5_counterexample :
    (mark_as_failed new_emergency_notification).status = NotifStatus.failed ∧
    (applyOps [NotificationOp.markFailed, NotificationOp.markDelivered 5]
        new_emergency_notification).status = NotifStatus.delivered ∧
    NotifStatus.delivered ≠ NotifStatus.failed ∧
    (update_emergency_notification none 5 (mark_as_failed new_emergency_notification)).status =
      NotifStatus.delivered :=
  ⟨rfl, rfl, by decide, rfl⟩

/-- C5 (amended): each operation sets its target status
unconditionally — `mark_as_sent` always yields `sent` stamping
`sent_at`, `mark_as_delivered` always yields `delivered` stamping
`delivered_at`, `mark_as_failed` always yields `failed` — and
`add_response` records the response fields without ever changing the
status; no operation checks the current status, so sequences moving
backwards or out of `failed` are not prevented. -/
theorem claim_C5_amended (n : EmergencyNotification) (t t2 : Nat) (msg : String) :
    (mark_as_sent t n).status = NotifStatus.sent ∧
    (mark_as_sent t n).sent_at = some t ∧
    (mark_as_delivered t n).status = NotifStatus.delivered ∧
    (mark_as_delivered t n).delivered_at = some t ∧
    (mark_as_failed n).status = NotifStatus.failed ∧
    (add_response msg t2 n).status = n.status ∧
    (add_response msg t2 n).response_received = true ∧
    (add_response msg t2 n).response_message = some msg :=
  ⟨rfl, rfl, rfl, rfl, rfl, rfl, rfl, rfl⟩

/-- C6 (counterexample): `Folic acid` still contributes 1 even though
a high-risk match (`Insulin 10mg`) was already found for the patient:
the two-element list scores 3, not the 2 the per-patient gating of the
claim would give. -/
theorem claim_C6_counterexample :
    (medications_fold ["Insulin 10mg"]).1 = 2 ∧
    (medications_fold ["Insulin 10mg", "Folic acid"]).1 = 3 ∧
    (3 : Nat) ≠ 2 :=
  ⟨rfl, rfl, by decide⟩

/-- C6 (amended): the medications sub-score is the sum of independent
per-medication contributions: a medication matching the high-risk table
(case-insensitive substring) contributes 2, and one matching the
medium-risk table contributes 1 provided that same medication has no
high-risk match — matches found for other medications of the patient
do not suppress it.  `Insulin 10mg` contributes 2 and `Folic acid`
contributes 1. -/
theorem claim_C6_amended (medications : List String) :
    (medications_fold medications).1 = (medications.map medication_item_score).sum ∧
    medication_item_score "Insulin 10mg" = 2 ∧
    medication_item_score "Folic acid" = 1 := by
  refine ⟨?_, rfl, rfl⟩
  have h := medications_fold_score_general medications (0, [])
  simpa [medications_fold] using h

/-- C7 (counterexample): the scenario run produces no total at all —
assess raises `AttributeError` at the undeclared `patient.trimester`
read — and the conditions data of the scenario already refute the
claimed arithmetic: the conditions helper yields 4, not the 2 the
total of 8 assumes. -/
theorem claim_C7_counterexample :
    assess_risk c7_patient c7_weather = Except.error trimester_attribute_error ∧
    (calculate_conditions_risk c7_patient).score = 4 ∧
    (4 : Nat) ≠ 2 :=
  ⟨rfl, rfl, by decide⟩

/-- C7 (amended): the scenario run raises `AttributeError` at the
trimester read and returns no total; on the scenario data the factor
helpers give age 2, trimester 2 (for the trimester value 3 that
`get_trimester` derives from 30 weeks), location 2 (heat wave),
conditions 4 (the `O14` double count), medications 0 and age-group 0,
so the scoring construction downstream of the read totals 10 — not
8 — and classifies `high`. -/
theorem claim_C7_amended :
    assess_risk c7_patient c7_weather = Except.error trimester_attribute_error ∧
    get_trimester (some 30) = some 3 ∧
    (calculate_age_risk 19).score = 2 ∧
    (calculate_trimester_risk (some 3)).score = 2 ∧
    (location_factor c7_weather).1.score = 2 ∧
    (calculate_conditions_risk c7_patient).score = 4 ∧
    (calculate_medications_risk c7_patient).score = 0 ∧
    (age_group_factor (some (some true))).1 = 0 ∧
    (assessment_given_trimester c7_patient (some 3) c7_weather).risk_score = 10 ∧
    (assessment_given_trimester c7_patient (some 3) c7_weather).risk_level =
      RiskLevel.high :=
  ⟨rfl, rfl, rfl, rfl, rfl, rfl, rfl, rfl, rfl, rfl⟩

/-- C8 (confirmed): the overall risk level of the scoring
construction is a function of the total risk score alone — at most 3
is `low`, 4 or 5 is `medium`, 6 or more is `high`; in particular 3 is
low, 4 is medium and 6 is high.  (The classification block at
`risk_service.py:121-127` sits downstream of the trimester crash, so
the statement is about the construction the block defines.) -/
theorem claim_C8_classification (p : Patient) (t : Option Int) (w : WeatherOutcome)
    (n : Nat) :
    (assessment_given_trimester p t w).risk_level =
      finalRiskLevel (assessment_given_trimester p t w).risk_score ∧
    finalRiskLevel n =
      (if n ≤ 3 then RiskLevel.low else if n ≤ 5 then RiskLevel.medium else RiskLevel.high) ∧
    finalRiskLevel 3 = RiskLevel.low ∧
    finalRiskLevel 4 = RiskLevel.medium ∧
    finalRiskLevel 6 = RiskLevel.high :=
  ⟨rfl, rfl, rfl, rfl, rfl⟩

/-- C9 (confirmed): the age sub-score is 2 with level `high` for ages
in [17,20] or [31,35], 1 with level `medium` for ages in [21,30], and
0 with level `low` for every other integer age. -/
theorem claim_C9_age_risk (age : Int) :
    ((17 ≤ age ∧ age ≤ 20) ∨ (31 ≤ age ∧ age ≤ 35) →
      calculate_age_risk age = { score := 2, level := RiskLevel.high }) ∧
    (21 ≤ age ∧ age ≤ 30 →
      calculate_age_risk age = { score := 1, level := RiskLevel.medium }) ∧
    (¬((17 ≤ age ∧ age ≤ 20) ∨ (31 ≤ age ∧ age ≤ 35)) ∧ ¬(21 ≤ age ∧ age ≤ 30) →
      calculate_age_risk age = { score := 0, level := RiskLevel.low }) := by
  unfold calculate_age_risk
  refine ⟨fun h => ?_, fun h => ?_, fun h => ?_⟩
  · rw [if_pos h]
  · have hng : ¬((17 ≤ age ∧ age ≤ 20) ∨ (31 ≤ age ∧ age ≤ 35)) := by omega
    rw [if_neg hng, if_pos h]
  · obtain ⟨h1, h2⟩ := h
    rw [if_neg h1, if_neg h2]

/-- C9 (witness): the three cases at ages 19, 25 and 40. -/
theorem claim_C9_witness :
    calculate_age_risk 19 = { score := 2, level := RiskLevel.high } ∧
    calculate_age_risk 25 = { score := 1, level := RiskLevel.medium } ∧
    calculate_age_risk 40 = { score := 0, level := RiskLevel.low } :=
  ⟨(claim_C9_age_risk 19).1 (by decide),
   (claim_C9_age_risk 25).2.1 (by decide),
   (claim_C9_age_risk 40).2.2 (by decide)⟩

/-- C10 (confirmed): every result dictionary the escalation ever
builds — the high-risk `doctor_called` result, the medium and low
notification results, the fallback result, and hence whatever the
level dispatch returns — has `success=True`, so the success flag never
distinguishes a fallback outcome from a normal one; callers must
inspect `action_taken` instead. -/
theorem claim_C10_success_flag (p : Patient) (env : EscEnv) (level : RiskLevel) :
    (handle_high_risk p env).success = true ∧
    (handle_medium_risk p env).success = true ∧
    (handle_low_risk p env).success = true ∧
    (create_fallback_notification p level).success = true ∧
    (risk_dispatch level p env).success = true :=
  ⟨handle_high_risk_success p env, handle_medium_risk_success p env,
   handle_low_risk_success p env, rfl, risk_dispatch_success level p env⟩
